import Mathlib

/-!
Shallow embedding of the diagram-builder system (src/main.cpp).

Side effects (every `cout` line and every subscriber notification) are
modelled as a trace: a `List String`, one entry per emitted line.  Stateful
objects become explicit records passed through the operations; `shared_ptr`
identity for flyweight figures is modelled by a heap (`store`, a list of
figures) with handles that are indices into it, and command-object identity
by a numeric `id` stamped at creation.
-/

namespace DiagramBuilder

/-- Observer variants (`RegSub`, `ContrastImageSub` in the source). -/
inductive DrawSubscriber where
  | regSub
  | contrastImageSub
deriving DecidableEq, Repr

/-- `notify` of each concrete observer: the line it prints for a message. -/
def DrawSubscriber.notify : DrawSubscriber → String → String
  | .regSub, msg => "[Regular Subscriber] " ++ msg
  | .contrastImageSub, msg => "[Contrast Image Subscriber] " ++ msg

/-- `class Graph : public Diagram` — its state is the ordered subscriber list. -/
structure Graph where
  subscribers : List DrawSubscriber
deriving DecidableEq, Repr

def Graph.notifySubscribers (g : Graph) (msg : String) : List String :=
  g.subscribers.map (fun s => s.notify msg)

def Graph.calc (g : Graph) : List String :=
  "Calculating Graph" :: g.notifySubscribers "Graph calculated"

def Graph.draw (g : Graph) : List String :=
  "[Graph] Drawing graphical representation." :: g.notifySubscribers "Graph drawn"

def Graph.drag (g : Graph) : List String :=
  "Dragging Graph" :: g.notifySubscribers "Graph dragged"

def Graph.attachSubscriber (g : Graph) (s : DrawSubscriber) : Graph :=
  ⟨g.subscribers ++ [s]⟩

/-- `class Figure : public Diagram`. -/
structure Figure where
  subscribers : List DrawSubscriber
deriving DecidableEq, Repr

def Figure.notifySubscribers (f : Figure) (msg : String) : List String :=
  f.subscribers.map (fun s => s.notify msg)

def Figure.calc (f : Figure) : List String :=
  "Calculating Figure" :: f.notifySubscribers "Figure calculated"

def Figure.draw (f : Figure) : List String :=
  "[Figure Stub] Drawing textual stub." :: f.notifySubscribers "Figure drawn"

def Figure.drag (f : Figure) : List String :=
  "Dragging Figure" :: f.notifySubscribers "Figure dragged"

def Figure.attachSubscriber (f : Figure) (s : DrawSubscriber) : Figure :=
  ⟨f.subscribers ++ [s]⟩

/-- `DrawGraph::draw` (the concrete Draw Proxy): one combined line. -/
def DrawGraph.draw : List String :=
  ["[Graph Proxy] Drawing graphical + textual stub"]

/-- Substring test, modelling `s.find(pat) != string::npos`:
does `pat` start at some position of `s`? -/
def charsStarts : List Char → List Char → Bool
  | _, [] => true
  | [], _ :: _ => false
  | c :: cs, d :: ds => c = d && charsStarts cs ds

def charsHasSub : List Char → List Char → Bool
  | [], pat => pat.isEmpty
  | s@(_ :: rest), pat => charsStarts s pat || charsHasSub rest pat

def strContains (s pat : String) : Bool :=
  charsHasSub s.data pat.data

/-- The two concrete flyweight classes, as a variant tag. -/
inductive FlyweightVariant where
  | colored
  | bw
deriving DecidableEq, Repr

/-- A flyweight figure: `ColoredFigure` / `BWFigure`, each holding the key it
was built from and its own subscriber list. -/
structure FlyweightFigure where
  variant : FlyweightVariant
  type : String
  subscribers : List DrawSubscriber
deriving DecidableEq, Repr

def FlyweightFigure.draw (f : FlyweightFigure) : List String :=
  match f.variant with
  | .colored =>
      ("[Colored Flyweight] Drawing colored figure of type: " ++ f.type)
        :: f.subscribers.map (fun s => s.notify "Colored Figure drawn")
  | .bw =>
      ("[B/W Flyweight] Drawing black and white figure of type: " ++ f.type)
        :: f.subscribers.map (fun s => s.notify "B/W Figure drawn")

def FlyweightFigure.attachSubscriber (f : FlyweightFigure) (s : DrawSubscriber) :
    FlyweightFigure :=
  { f with subscribers := f.subscribers ++ [s] }

/-- The figure the flyweight factory builds for an unseen key:
`type.find("Color") != npos` selects `ColoredFigure`, otherwise `BWFigure`. -/
def mkFlyweight (ty : String) : FlyweightFigure :=
  if strContains ty "Color" then ⟨.colored, ty, []⟩ else ⟨.bw, ty, []⟩

/-- Association lookup in the pool (`pool.find(type)`). -/
def assocFind : List (String × Nat) → String → Option Nat
  | [], _ => none
  | (k, v) :: rest, key => if k = key then some v else assocFind rest key

/-- `FlyweightFactory`: a heap of figures (`store`) and the key → handle map
(`pool`).  A handle is an index into `store`; equal handles model
`shared_ptr` identity. -/
structure FlyweightFactory where
  store : List FlyweightFigure
  pool : List (String × Nat)
deriving DecidableEq, Repr

/-- `FlyweightFactory::getFigure`: find-or-insert, returning the handle. -/
def FlyweightFactory.getFigure (fac : FlyweightFactory) (ty : String) :
    FlyweightFactory × Nat :=
  match assocFind fac.pool ty with
  | some idx => (fac, idx)
  | none =>
      ({ store := fac.store ++ [mkFlyweight ty],
         pool := fac.pool ++ [(ty, fac.store.length)] }, fac.store.length)

/-- Dereference a handle and attach a subscriber to the figure it points to
(`fig->attachSubscriber(sub)`). -/
def FlyweightFactory.attachSubscriberAt (fac : FlyweightFactory) (idx : Nat)
    (sub : DrawSubscriber) : FlyweightFactory :=
  match fac.store[idx]? with
  | some fig => { fac with store := fac.store.set idx (fig.attachSubscriber sub) }
  | none => fac

/-- Dereference a handle and draw (`fig->draw()`). -/
def FlyweightFactory.drawAt (fac : FlyweightFactory) (idx : Nat) : List String :=
  match fac.store[idx]? with
  | some fig => fig.draw
  | none => []

/-- Mutable coordinate state of the two builder singletons
(`BarBuilder::getInstance()`, `LineBuilder::getInstance()`). -/
structure Builders where
  bar : String
  line : String
deriving DecidableEq, Repr

/-- A pointer to one of the two builder singletons. -/
inductive BuilderRef where
  | toBar
  | toLine
deriving DecidableEq, Repr

def Builders.setCoord (bs : Builders) : BuilderRef → String → Builders
  | .toBar, c => { bs with bar := c }
  | .toLine, c => { bs with line := c }

def Builders.calc (bs : Builders) : BuilderRef → List String
  | .toBar => ["Bar calc at " ++ bs.bar]
  | .toLine => ["Line calc at " ++ bs.line]

/-- Both builders' `draw` delegates to the proxy member (`proxy.draw()`). -/
def Builders.draw (_bs : Builders) : BuilderRef → List String
  | .toBar => DrawGraph.draw
  | .toLine => DrawGraph.draw

def Builders.drag (bs : Builders) : BuilderRef → List String
  | .toBar => ["Drag Bar at " ++ bs.bar]
  | .toLine => ["Drag Line at " ++ bs.line]

/-- `Director::construct`: `setCoord(coord); calc(); draw(); drag();`. -/
def Director.construct (b : BuilderRef) (_ty coord : String) (bs : Builders) :
    Builders × List String :=
  let bs1 := bs.setCoord b coord
  (bs1, bs1.calc b ++ bs1.draw b ++ bs1.drag b)

/-- `GraphFactory::createGraph`: exact style-name dispatch, silent otherwise. -/
def GraphFactory.createGraph (ty coord : String) (bs : Builders) :
    Builders × List String :=
  if ty = "Bar" then Director.construct .toBar ty coord bs
  else if ty = "Line" then Director.construct .toLine ty coord bs
  else (bs, [])

/-- `CreateGraphCommand`: the reified request.  `id` models the identity of
the `shared_ptr<Command>` object, stamped at construction. -/
structure CreateGraphCommand where
  id : Nat
  type : String
  coord : String
deriving DecidableEq, Repr

def CreateGraphCommand.execute (cmd : CreateGraphCommand) (bs : Builders) :
    Builders × List String :=
  GraphFactory.createGraph cmd.type cmd.coord bs

def CreateGraphCommand.undo (cmd : CreateGraphCommand) : List String :=
  ["Undo creation of graph: " ++ cmd.type]

/-- `class Undo`: the undo stack (head = top). -/
structure Undo where
  undoStack : List CreateGraphCommand
deriving DecidableEq, Repr

def Undo.addCommand (u : Undo) (cmd : CreateGraphCommand) : Undo :=
  ⟨cmd :: u.undoStack⟩

/-- `Undo::popCommand`: `nullptr` on empty becomes `none`. -/
def Undo.popCommand : Undo → Undo × Option CreateGraphCommand
  | ⟨[]⟩ => (⟨[]⟩, none)
  | ⟨c :: rest⟩ => (⟨rest⟩, some c)

/-- `class Redo`: the redo stack (head = top). -/
structure Redo where
  redoStack : List CreateGraphCommand
deriving DecidableEq, Repr

def Redo.addCommand (r : Redo) (cmd : CreateGraphCommand) : Redo :=
  ⟨cmd :: r.redoStack⟩

def Redo.popCommand : Redo → Redo × Option CreateGraphCommand
  | ⟨[]⟩ => (⟨[]⟩, none)
  | ⟨c :: rest⟩ => (⟨rest⟩, some c)

/-- `Redo::clear`: pop until empty. -/
def Redo.clear (_r : Redo) : Redo := ⟨[]⟩

/-- The facade `DiagramFactory`, together with the process-global state it
drives: the builder singletons' coordinates and the `FigureFactory`
singleton's flyweight cache.  `nextId` stamps command identities. -/
structure DiagramFactory where
  builders : Builders
  undoManager : Undo
  redoManager : Redo
  flyFactory : FlyweightFactory
  nextId : Nat
deriving DecidableEq, Repr

/-- The fresh state at the start of `main`. -/
def DiagramFactory.init : DiagramFactory :=
  ⟨⟨"", ""⟩, ⟨[]⟩, ⟨[]⟩, ⟨[], []⟩, 0⟩

/-- `DiagramFactory::createGraph`: build the command, execute it, push it on
the undo stack, clear the redo stack. -/
def DiagramFactory.createGraph (df : DiagramFactory) (ty coord : String) :
    DiagramFactory × List String :=
  let cmd : CreateGraphCommand := ⟨df.nextId, ty, coord⟩
  let r := cmd.execute df.builders
  ({ df with builders := r.1,
             undoManager := df.undoManager.addCommand cmd,
             redoManager := df.redoManager.clear,
             nextId := df.nextId + 1 }, r.2)

/-- `DiagramFactory::createFigure`, inlining `FigureFactory::getFigure`:
fetch/create the flyweight, attach `regSub`, echo the coordinate, draw,
then attach `contrastSub` to the returned handle. -/
def DiagramFactory.createFigure (df : DiagramFactory) (ty coord : String) :
    DiagramFactory × List String :=
  let r := df.flyFactory.getFigure ty
  let fac2 := r.1.attachSubscriberAt r.2 .regSub
  let drawOut := fac2.drawAt r.2
  let fac3 := fac2.attachSubscriberAt r.2 .contrastImageSub
  ({ df with flyFactory := fac3 }, ("Coordinates: " ++ coord) :: drawOut)

/-- `DiagramFactory::getDiagram` (the `createDiagram` facade entry). -/
def DiagramFactory.getDiagram (df : DiagramFactory) (element ty coord : String) :
    DiagramFactory × List String :=
  if element = "Graph" then df.createGraph ty coord
  else if element = "Figure" then df.createFigure ty coord
  else (df, [])

/-- `DiagramFactory::undo`: pop, emit the undo acknowledgment, push on redo. -/
def DiagramFactory.undo (df : DiagramFactory) : DiagramFactory × List String :=
  let p := df.undoManager.popCommand
  match p.2 with
  | some cmd =>
      ({ df with undoManager := p.1,
                 redoManager := df.redoManager.addCommand cmd }, cmd.undo)
  | none => ({ df with undoManager := p.1 }, [])

/-- `DiagramFactory::redo`: pop, re-execute, push back on undo. -/
def DiagramFactory.redo (df : DiagramFactory) : DiagramFactory × List String :=
  let p := df.redoManager.popCommand
  match p.2 with
  | some cmd =>
      let r := cmd.execute df.builders
      ({ df with builders := r.1,
                 redoManager := p.1,
                 undoManager := df.undoManager.addCommand cmd }, r.2)
  | none => ({ df with redoManager := p.1 }, [])

/-! ## Derived observation functions -/

/-- The figure a key currently denotes: follow the pool handle into the heap. -/
def figAt (fac : FlyweightFactory) (key : String) : Option FlyweightFigure :=
  (assocFind fac.pool key).bind (fun i => fac.store[i]?)

/-- The rendering-style variant currently cached for a key. -/
def variantAt (fac : FlyweightFactory) (key : String) : Option FlyweightVariant :=
  (figAt fac key).map (fun f => f.variant)

/-- The heap handle the pool currently records for a key. -/
def handleAt (fac : FlyweightFactory) (key : String) : Option Nat :=
  assocFind fac.pool key

/-- Subscriber list accumulated on a fresh flyweight after `n` `createFigure`
calls: each call appends the regular then the contrast subscriber. -/
def subsAfter : Nat → List DrawSubscriber
  | 0 => []
  | n + 1 => [.regSub, .contrastImageSub] ++ subsAfter n

/-- One `createFigure` call viewed as a state transformer. -/
def applyCreateFigure (ty : String) (df : DiagramFactory) (coord : String) :
    DiagramFactory :=
  (df.createFigure ty coord).1

/-- The state after two executes from fresh: `createGraph "Bar" "(1,1)"` then
`createGraph "Line" "(2,2)"`. -/
def exampleTwoExec : DiagramFactory :=
  ((DiagramFactory.init.createGraph "Bar" "(1,1)").1.createGraph "Line" "(2,2)").1

/-- The flyweight factory after inserting the key "CircleColor" into an
empty cache. -/
def exampleFac : FlyweightFactory :=
  ((⟨[], []⟩ : FlyweightFactory).getFigure "CircleColor").1

/-! ## Helper lemmas -/

theorem assocFind_append_of_none {l : List (String × Nat)} {key : String}
    (h : assocFind l key = none) (l' : List (String × Nat)) :
    assocFind (l ++ l') key = assocFind l' key := by
  induction l with
  | nil => rfl
  | cons p rest ih =>
    obtain ⟨k, v⟩ := p
    by_cases hk : k = key
    · simp [assocFind, hk] at h
    · simp only [List.cons_append, assocFind, if_neg hk] at h ⊢
      exact ih h

theorem assocFind_append_of_some {l : List (String × Nat)} {key : String} {i : Nat}
    (h : assocFind l key = some i) (l' : List (String × Nat)) :
    assocFind (l ++ l') key = some i := by
  induction l with
  | nil => simp [assocFind] at h
  | cons p rest ih =>
    obtain ⟨k, v⟩ := p
    by_cases hk : k = key
    · simp only [assocFind, if_pos hk] at h
      simp only [List.cons_append, assocFind, if_pos hk]
      exact h
    · simp only [assocFind, if_neg hk] at h
      simp only [List.cons_append, assocFind, if_neg hk]
      exact ih h

theorem undo_nil (df : DiagramFactory) (h : df.undoManager.undoStack = []) :
    df.undo = (df, []) := by
  obtain ⟨bs, ⟨us⟩, r, fl, n⟩ := df
  simp only at h
  subst h
  rfl

theorem undo_cons (df : DiagramFactory) (cmd : CreateGraphCommand)
    (rest : List CreateGraphCommand) (h : df.undoManager.undoStack = cmd :: rest) :
    df.undo = ({ df with undoManager := ⟨rest⟩,
                         redoManager := df.redoManager.addCommand cmd }, cmd.undo) := by
  obtain ⟨bs, ⟨us⟩, r, fl, n⟩ := df
  simp only at h
  subst h
  rfl

theorem redo_nil (df : DiagramFactory) (h : df.redoManager.redoStack = []) :
    df.redo = (df, []) := by
  obtain ⟨bs, u, ⟨rs⟩, fl, n⟩ := df
  simp only at h
  subst h
  rfl

theorem redo_cons (df : DiagramFactory) (cmd : CreateGraphCommand)
    (rest : List CreateGraphCommand) (h : df.redoManager.redoStack = cmd :: rest) :
    df.redo = ({ df with builders := (cmd.execute df.builders).1,
                         redoManager := ⟨rest⟩,
                         undoManager := df.undoManager.addCommand cmd },
               (cmd.execute df.builders).2) := by
  obtain ⟨bs, u, ⟨rs⟩, fl, n⟩ := df
  simp only at h
  subst h
  rfl

/-! ## Claims -/

/-- C1: executing a new command via `createDiagram("Graph", style, coord)`
clears the entire redo stack: after execute A, execute B, undo,
execute C, the redo stack is empty, so a subsequent `redo()` is a no-op
(state unchanged, no output) and does not re-execute B. -/
theorem c1_execute_clears_redo (df : DiagramFactory)
    (tyA cA tyB cB tyC cC : String) :
    ((((df.createGraph tyA cA).1.createGraph tyB cB).1.undo.1.createGraph tyC cC).1.redoManager.redoStack = [])
    ∧ ((((df.createGraph tyA cA).1.createGraph tyB cB).1.undo.1.createGraph tyC cC).1.redo
        = ((((df.createGraph tyA cA).1.createGraph tyB cB).1.undo.1.createGraph tyC cC).1, [])) := by
  refine ⟨rfl, ?_⟩
  exact redo_nil _ rfl

/-- C3: execute A, then `undo()`, then `redo()` leaves the undo stack exactly
as it was immediately after the execute of A (same stack, hence same size and
same command object on top). -/
theorem c3_execute_undo_redo_round_trip (df : DiagramFactory) (ty coord : String) :
    (df.createGraph ty coord).1.undo.1.redo.1.undoManager.undoStack
      = (df.createGraph ty coord).1.undoManager.undoStack := rfl

/-- C5: `undo()` on an empty undo stack and `redo()` on an empty redo stack
are no-ops, not errors: the state is unchanged and no output is emitted. -/
theorem c5_empty_stack_noop (df : DiagramFactory) :
    (df.undoManager.undoStack = [] → df.undo = (df, []))
    ∧ (df.redoManager.redoStack = [] → df.redo = (df, [])) :=
  ⟨fun h => undo_nil df h, fun h => redo_nil df h⟩

/-- Witness for C5 at the fresh state (no prior execute). -/
theorem c5_empty_stack_noop_witness :
    DiagramFactory.init.undo = (DiagramFactory.init, [])
    ∧ DiagramFactory.init.redo = (DiagramFactory.init, []) :=
  ⟨(c5_empty_stack_noop DiagramFactory.init).1 rfl,
   (c5_empty_stack_noop DiagramFactory.init).2 rfl⟩

/-- C9: every `createDiagram("Graph", style, coord)` — the style string
unconstrained, so in particular unrecognized styles such as "Bogus" — wraps
the request in a command, pushes it onto the undo stack and clears the redo
stack; a later `undo()` pops that command, restores the previous undo stack
and emits the undo acknowledgment naming that style. -/
theorem c9_unrecognized_style_enters_history (df : DiagramFactory)
    (ty coord : String) :
    df.getDiagram "Graph" ty coord = df.createGraph ty coord
    ∧ (df.createGraph ty coord).1.undoManager.undoStack
        = (⟨df.nextId, ty, coord⟩ : CreateGraphCommand) :: df.undoManager.undoStack
    ∧ (df.createGraph ty coord).1.redoManager.redoStack = []
    ∧ (df.createGraph ty coord).1.undo.2 = ["Undo creation of graph: " ++ ty]
    ∧ (df.createGraph ty coord).1.undo.1.undoManager.undoStack
        = df.undoManager.undoStack := by
  refine ⟨rfl, rfl, rfl, ?_, ?_⟩ <;> rfl

/-- C4 counterexample: the redo stack is NOT cleared on redo.  After
execute Bar, execute Line, undo, undo, redo, the redo stack still holds the
Line command — it is nonempty, refuting both "cleared on every redo" and
"after two undos followed by one redo the redo stack is empty". -/
theorem c4_counterexample :
    exampleTwoExec.undo.1.undo.1.redo.1.redoManager.redoStack
        = [⟨1, "Line", "(2,2)"⟩]
    ∧ exampleTwoExec.undo.1.undo.1.redo.1.redoManager.redoStack ≠ [] := by
  exact ⟨rfl, by decide⟩

/-- C4 amended: the undo stack grows by one on every execute and on every
redo; the redo stack is cleared on every new execute, grows by one on every
undo, and on each redo it shrinks by exactly one (only the redone command is
removed — it is not cleared); in particular, after two undos followed by one
`redo()` the redo stack contains exactly the one command undone first. -/
theorem c4_stack_discipline (df : DiagramFactory) (ty coord : String)
    (cmd c1 c2 : CreateGraphCommand) (rest rest2 : List CreateGraphCommand) :
    ((df.createGraph ty coord).1.undoManager.undoStack.length
        = df.undoManager.undoStack.length + 1
      ∧ (df.createGraph ty coord).1.redoManager.redoStack = [])
    ∧ (df.redoManager.redoStack = cmd :: rest →
        df.redo.1.undoManager.undoStack.length
            = df.undoManager.undoStack.length + 1
          ∧ df.redo.1.redoManager.redoStack = rest)
    ∧ (df.undoManager.undoStack = cmd :: rest →
        df.undo.1.redoManager.redoStack = cmd :: df.redoManager.redoStack)
    ∧ (df.undoManager.undoStack = c1 :: c2 :: rest2 →
        df.redoManager.redoStack = [] →
        df.undo.1.undo.1.redo.1.redoManager.redoStack = [c1]) := by
  obtain ⟨bs, ⟨us⟩, ⟨rs⟩, fl, n⟩ := df
  refine ⟨⟨rfl, rfl⟩, fun h => ?_, fun h => ?_, fun h1 h2 => ?_⟩
  · have h' : rs = cmd :: rest := h
    subst h'
    exact ⟨rfl, rfl⟩
  · have h' : us = cmd :: rest := h
    subst h'
    rfl
  · have h1' : us = c1 :: c2 :: rest2 := h1
    have h2' : rs = [] := h2
    subst h1'
    subst h2'
    rfl

/-- Witness for C4 amended, at the state after two executes: a redo grows the
undo stack by one and pops exactly one command off the redo stack, and two
undos followed by a redo leave exactly one command on the redo stack. -/
theorem c4_stack_discipline_witness :
    (exampleTwoExec.undo.1.redo.1.undoManager.undoStack.length
        = exampleTwoExec.undo.1.undoManager.undoStack.length + 1
      ∧ exampleTwoExec.undo.1.redo.1.redoManager.redoStack = [])
    ∧ exampleTwoExec.undo.1.redoManager.redoStack
        = (⟨1, "Line", "(2,2)"⟩ : CreateGraphCommand)
            :: exampleTwoExec.redoManager.redoStack
    ∧ exampleTwoExec.undo.1.undo.1.redo.1.redoManager.redoStack
        = [⟨1, "Line", "(2,2)"⟩] :=
  ⟨(c4_stack_discipline exampleTwoExec.undo.1 "x" "y" ⟨1, "Line", "(2,2)"⟩
      ⟨0, "", ""⟩ ⟨0, "", ""⟩ [] []).2.1 rfl,
   (c4_stack_discipline exampleTwoExec "x" "y" ⟨1, "Line", "(2,2)"⟩
      ⟨0, "", ""⟩ ⟨0, "", ""⟩ [⟨0, "Bar", "(1,1)"⟩] []).2.2.1 rfl,
   (c4_stack_discipline exampleTwoExec "x" "y" ⟨0, "", ""⟩ ⟨1, "Line", "(2,2)"⟩
      ⟨0, "Bar", "(1,1)"⟩ [] []).2.2.2 rfl rfl⟩

/-- C6: an element string other than "Graph"/"Figure" makes `createDiagram` a
complete silent no-op, and a graph style other than "Bar"/"Line" (exact,
case-sensitive match) creates no diagram, runs no construction step (the
graph factory returns the builders unchanged with no output) and surfaces
no error or signal (the emitted trace is empty). -/
theorem c6_unknown_strings_silent (df : DiagramFactory)
    (element ty coord : String) :
    (element ≠ "Graph" → element ≠ "Figure" →
       df.getDiagram element ty coord = (df, []))
    ∧ (ty ≠ "Bar" → ty ≠ "Line" →
       GraphFactory.createGraph ty coord df.builders = (df.builders, [])
       ∧ (df.getDiagram "Graph" ty coord).2 = []
       ∧ (df.getDiagram "Graph" ty coord).1.builders = df.builders) := by
  constructor
  · intro h1 h2
    simp [DiagramFactory.getDiagram, h1, h2]
  · intro h1 h2
    refine ⟨?_, ?_, ?_⟩ <;>
      simp [DiagramFactory.getDiagram, DiagramFactory.createGraph,
            CreateGraphCommand.execute, GraphFactory.createGraph, h1, h2]

/-- Witness for C6: lowercase "graph" and "bar" are not matched (the
dispatch is case-sensitive), so both paths are silent no-ops. -/
theorem c6_unknown_strings_silent_witness :
    DiagramFactory.init.getDiagram "graph" "Bar" "(1,1)" = (DiagramFactory.init, [])
    ∧ (GraphFactory.createGraph "bar" "(1,1)" DiagramFactory.init.builders
          = (DiagramFactory.init.builders, [])
       ∧ (DiagramFactory.init.getDiagram "Graph" "bar" "(1,1)").2 = []
       ∧ (DiagramFactory.init.getDiagram "Graph" "bar" "(1,1)").1.builders
          = DiagramFactory.init.builders) :=
  ⟨(c6_unknown_strings_silent DiagramFactory.init "graph" "bar" "(1,1)").1
      (by decide) (by decide),
   (c6_unknown_strings_silent DiagramFactory.init "graph" "bar" "(1,1)").2
      (by decide) (by decide)⟩

/-- C7: for a recognized style, the Director performs exactly the four steps
`setCoord(coord)`, `calc()`, `draw()`, `drag()` on the selected builder in
that order — `setCoord` mutates the builder first, then the trace is exactly
the calc line, the single combined proxy line (`draw` delegates to the Draw
Proxy), and the drag line, with nothing else and no branching. -/
theorem c7_director_fixed_sequence (b : BuilderRef) (ty coord : String)
    (bs : Builders) :
    Director.construct b ty coord bs
      = (bs.setCoord b coord,
         (bs.setCoord b coord).calc b ++ DrawGraph.draw
           ++ (bs.setCoord b coord).drag b)
    ∧ Director.construct .toBar ty coord bs
      = ({ bs with bar := coord },
         ["Bar calc at " ++ coord,
          "[Graph Proxy] Drawing graphical + textual stub",
          "Drag Bar at " ++ coord])
    ∧ Director.construct .toLine ty coord bs
      = ({ bs with line := coord },
         ["Line calc at " ++ coord,
          "[Graph Proxy] Drawing graphical + textual stub",
          "Drag Line at " ++ coord])
    ∧ GraphFactory.createGraph "Bar" coord bs
        = Director.construct .toBar "Bar" coord bs
    ∧ GraphFactory.createGraph "Line" coord bs
        = Director.construct .toLine "Line" coord bs := by
  refine ⟨?_, rfl, rfl, rfl, rfl⟩
  cases b <;> rfl

/-- C8: each state-changing call (`calc`, `draw`, `drag`) on a Graph or a
Figure notifies every attached subscriber exactly once and in attachment
order within its emitted trace: the trace has exactly one header line plus
one notification per subscriber, and the notification at position `i + 1` is
the `i`-th attached subscriber's; attaching appends at the end of the list,
so earlier-attached subscribers are notified first. -/
theorem c8_subscribers_notified_in_order (g : Graph) (f : Figure)
    (s : DrawSubscriber) (i : Nat) :
    (g.calc.length = g.subscribers.length + 1
      ∧ g.calc[i + 1]? = g.subscribers[i]?.map (fun x => x.notify "Graph calculated"))
    ∧ (g.draw.length = g.subscribers.length + 1
      ∧ g.draw[i + 1]? = g.subscribers[i]?.map (fun x => x.notify "Graph drawn"))
    ∧ (g.drag.length = g.subscribers.length + 1
      ∧ g.drag[i + 1]? = g.subscribers[i]?.map (fun x => x.notify "Graph dragged"))
    ∧ (f.calc.length = f.subscribers.length + 1
      ∧ f.calc[i + 1]? = f.subscribers[i]?.map (fun x => x.notify "Figure calculated"))
    ∧ (f.draw.length = f.subscribers.length + 1
      ∧ f.draw[i + 1]? = f.subscribers[i]?.map (fun x => x.notify "Figure drawn"))
    ∧ (f.drag.length = f.subscribers.length + 1
      ∧ f.drag[i + 1]? = f.subscribers[i]?.map (fun x => x.notify "Figure dragged"))
    ∧ (g.attachSubscriber s).subscribers = g.subscribers ++ [s]
    ∧ (f.attachSubscriber s).subscribers = f.subscribers ++ [s] := by
  refine ⟨⟨?_, ?_⟩, ⟨?_, ?_⟩, ⟨?_, ?_⟩, ⟨?_, ?_⟩, ⟨?_, ?_⟩, ⟨?_, ?_⟩, rfl, rfl⟩ <;>
    simp [Graph.calc, Graph.draw, Graph.drag, Figure.calc, Figure.draw,
          Figure.drag, Graph.notifySubscribers, Figure.notifySubscribers]

theorem handleAt_getFigure_of_some {fac : FlyweightFactory} {key : String}
    {i : Nat} (h : handleAt fac key = some i) (k : String) :
    handleAt (fac.getFigure k).1 key = some i := by
  cases hk : assocFind fac.pool k with
  | some j => simpa [FlyweightFactory.getFigure, hk] using h
  | none =>
    simp only [FlyweightFactory.getFigure, hk, handleAt] at h ⊢
    exact assocFind_append_of_some h _

theorem figAt_getFigure_of_some {fac : FlyweightFactory} {key : String}
    {fig : FlyweightFigure} (h : figAt fac key = some fig) (k : String) :
    figAt (fac.getFigure k).1 key = some fig := by
  simp only [figAt, Option.bind_eq_some] at h
  obtain ⟨i, hi, hs⟩ := h
  have hlt : i < fac.store.length := (List.getElem?_eq_some.mp hs).1
  cases hk : assocFind fac.pool k with
  | some j =>
    simp [FlyweightFactory.getFigure, hk, figAt, hi, hs]
  | none =>
    simp only [FlyweightFactory.getFigure, hk, figAt]
    rw [assocFind_append_of_some hi, Option.some_bind,
        List.getElem?_append_left hlt]
    exact hs

theorem variantAt_getFigure_of_some {fac : FlyweightFactory} {key : String}
    {v : FlyweightVariant} (h : variantAt fac key = some v) (k : String) :
    variantAt (fac.getFigure k).1 key = some v := by
  simp only [variantAt, Option.map_eq_some'] at h
  obtain ⟨fig, hfig, hv⟩ := h
  simp only [variantAt, figAt_getFigure_of_some hfig k, Option.map_some']
  rw [hv]

theorem attachSubscriberAt_pool (fac : FlyweightFactory) (idx : Nat)
    (sub : DrawSubscriber) : (fac.attachSubscriberAt idx sub).pool = fac.pool := by
  cases hidx : fac.store[idx]? <;>
    simp [FlyweightFactory.attachSubscriberAt, hidx]

theorem attachSubscriberAt_variant (fac : FlyweightFactory) (idx : Nat)
    (sub : DrawSubscriber) (j : Nat) :
    ((fac.attachSubscriberAt idx sub).store[j]?).map (fun f => f.variant)
      = (fac.store[j]?).map (fun f => f.variant) := by
  cases hidx : fac.store[idx]? with
  | none => simp [FlyweightFactory.attachSubscriberAt, hidx]
  | some fig0 =>
    simp only [FlyweightFactory.attachSubscriberAt, hidx]
    by_cases hj : idx = j
    · subst hj
      rw [List.getElem?_set_eq_of_lt _ ((List.getElem?_eq_some.mp hidx).1), hidx]
      rfl
    · rw [List.getElem?_set_ne hj]

theorem variantAt_attachSubscriberAt (fac : FlyweightFactory) (key : String)
    (idx : Nat) (sub : DrawSubscriber) :
    variantAt (fac.attachSubscriberAt idx sub) key = variantAt fac key := by
  simp only [variantAt, figAt, attachSubscriberAt_pool, Option.map_bind]
  cases hfind : assocFind fac.pool key with
  | none => rfl
  | some i =>
    simp only [Option.some_bind]
    exact attachSubscriberAt_variant fac idx sub i

theorem handleAt_foldl_getFigure {fac : FlyweightFactory} {key : String}
    {i : Nat} (h : handleAt fac key = some i) (keys : List String) :
    handleAt (keys.foldl (fun f k => (f.getFigure k).1) fac) key = some i := by
  induction keys generalizing fac with
  | nil => exact h
  | cons k ks ih => exact ih (handleAt_getFigure_of_some h k)

theorem variantAt_foldl_getFigure {fac : FlyweightFactory} {key : String}
    {v : FlyweightVariant} (h : variantAt fac key = some v) (keys : List String) :
    variantAt (keys.foldl (fun f k => (f.getFigure k).1) fac) key = some v := by
  induction keys generalizing fac with
  | nil => exact h
  | cons k ks ih => exact ih (variantAt_getFigure_of_some h k)

/-- C2: the flyweight cache returns the identical stored handle on every call
after the first for the same key (a second `getFigure` changes nothing and
returns the same handle, and the pooled handle survives any later sequence of
`getFigure` calls); the variant is chosen deterministically at first
insertion — a key containing the substring "Color" yields the Colored
variant, every other key the BW variant — and the variant recorded for a key
never changes under later `getFigure` calls or subscriber attachments. -/
theorem c2_flyweight_cache_identity (fac : FlyweightFactory) (key : String) :
    ((fac.getFigure key).1.getFigure key = fac.getFigure key)
    ∧ (handleAt (fac.getFigure key).1 key = some (fac.getFigure key).2)
    ∧ (assocFind fac.pool key = none →
        figAt (fac.getFigure key).1 key
          = some (if strContains key "Color"
                  then ⟨.colored, key, []⟩ else ⟨.bw, key, []⟩))
    ∧ (∀ (i : Nat) (keys : List String), handleAt fac key = some i →
        handleAt (keys.foldl (fun f k => (f.getFigure k).1) fac) key = some i)
    ∧ (∀ (v : FlyweightVariant) (keys : List String), variantAt fac key = some v →
        variantAt (keys.foldl (fun f k => (f.getFigure k).1) fac) key = some v)
    ∧ (∀ idx sub, variantAt (fac.attachSubscriberAt idx sub) key
        = variantAt fac key) := by
  have hins : ∀ h : assocFind fac.pool key = none,
      assocFind (fac.pool ++ [(key, fac.store.length)]) key
        = some fac.store.length := by
    intro h
    rw [assocFind_append_of_none h]
    simp [assocFind]
  refine ⟨?_, ?_, ?_, ?_, ?_, ?_⟩
  · cases hk : assocFind fac.pool key with
    | some j => simp [FlyweightFactory.getFigure, hk]
    | none => simp [FlyweightFactory.getFigure, hk, hins hk]
  · cases hk : assocFind fac.pool key with
    | some j => simp [FlyweightFactory.getFigure, hk, handleAt]
    | none => simp [FlyweightFactory.getFigure, hk, handleAt, hins hk]
  · intro h
    simp only [FlyweightFactory.getFigure, h, figAt, hins h, Option.some_bind]
    rw [List.getElem?_concat_length]
    simp [mkFlyweight]
  · intro i keys h
    exact handleAt_foldl_getFigure h keys
  · intro v keys h
    exact variantAt_foldl_getFigure h keys
  · intro idx sub
    exact variantAt_attachSubscriberAt fac key idx sub

/-- Witness for C2 at a concrete fresh cache: inserting "CircleColor" yields
the Colored variant at handle 0, and both the handle and the variant survive
a later `getFigure` for a different key. -/
theorem c2_flyweight_cache_identity_witness :
    figAt ((⟨[], []⟩ : FlyweightFactory).getFigure "CircleColor").1 "CircleColor"
      = some (if strContains "CircleColor" "Color"
              then ⟨.colored, "CircleColor", []⟩ else ⟨.bw, "CircleColor", []⟩)
    ∧ handleAt (["SquareBW"].foldl (fun f k => (f.getFigure k).1) exampleFac)
        "CircleColor" = some 0
    ∧ variantAt (["SquareBW"].foldl (fun f k => (f.getFigure k).1) exampleFac)
        "CircleColor" = some .colored :=
  ⟨(c2_flyweight_cache_identity (⟨[], []⟩ : FlyweightFactory) "CircleColor").2.2.1 rfl,
   (c2_flyweight_cache_identity exampleFac "CircleColor").2.2.2.1 0 ["SquareBW"] rfl,
   (c2_flyweight_cache_identity exampleFac "CircleColor").2.2.2.2.1 .colored
      ["SquareBW"] rfl⟩

theorem mkFlyweight_subscribers (ty : String) : (mkFlyweight ty).subscribers = [] := by
  unfold mkFlyweight
  split <;> rfl

theorem flyweight_draw_length (f : FlyweightFigure) :
    f.draw.length = f.subscribers.length + 1 := by
  obtain ⟨v, t, s⟩ := f
  cases v <;> simp [FlyweightFigure.draw]

theorem subsAfter_length (n : Nat) : (subsAfter n).length = 2 * n := by
  induction n with
  | zero => rfl
  | succ m ih => simp [subsAfter, ih]; omega

/-- `createFigure` unfolded: fetch the flyweight, attach the regular
subscriber through the handle, draw, attach the contrast subscriber. -/
theorem createFigure_unfold (df : DiagramFactory) (ty c : String) :
    df.createFigure ty c
      = ({ df with flyFactory :=
            (((df.flyFactory.getFigure ty).1.attachSubscriberAt
                (df.flyFactory.getFigure ty).2 .regSub).attachSubscriberAt
                (df.flyFactory.getFigure ty).2 .contrastImageSub) },
         ("Coordinates: " ++ c)
           :: ((df.flyFactory.getFigure ty).1.attachSubscriberAt
                (df.flyFactory.getFigure ty).2 .regSub).drawAt
                (df.flyFactory.getFigure ty).2) := rfl

/-- Effect of attach/draw/attach through a valid handle. -/
theorem attach_draw_attach (fac : FlyweightFactory) (ty : String) (idx : Nat)
    (fig : FlyweightFigure) (hpool : assocFind fac.pool ty = some idx)
    (hs : fac.store[idx]? = some fig) :
    figAt ((fac.attachSubscriberAt idx .regSub).attachSubscriberAt idx
        .contrastImageSub) ty
      = some { fig with subscribers :=
                fig.subscribers ++ [.regSub, .contrastImageSub] }
    ∧ (fac.attachSubscriberAt idx .regSub).drawAt idx
      = FlyweightFigure.draw
          { fig with subscribers := fig.subscribers ++ [.regSub] } := by
  have hlt : idx < fac.store.length := (List.getElem?_eq_some.mp hs).1
  have h1 : fac.attachSubscriberAt idx .regSub
      = { fac with store :=
            fac.store.set idx (fig.attachSubscriber .regSub) } := by
    simp [FlyweightFactory.attachSubscriberAt, hs]
  have hs2 : (fac.store.set idx (fig.attachSubscriber .regSub))[idx]?
      = some (fig.attachSubscriber .regSub) :=
    List.getElem?_set_eq_of_lt _ hlt
  have h2 : (fac.attachSubscriberAt idx .regSub).attachSubscriberAt idx
        .contrastImageSub
      = { fac with store := ((fac.store.set idx (fig.attachSubscriber .regSub)).set idx ((fig.attachSubscriber .regSub).attachSubscriber .contrastImageSub)) } := by
    rw [h1]
    simp [FlyweightFactory.attachSubscriberAt, hs2]
  constructor
  · rw [h2]
    simp only [figAt, hpool, Option.some_bind]
    rw [List.getElem?_set_eq_of_lt]
    · simp [FlyweightFigure.attachSubscriber]
    · simpa using hlt
  · rw [h1]
    simp only [FlyweightFactory.drawAt, hs2]
    rfl

/-- One `createFigure` call on a key already in the cache appends exactly the
regular then the contrast subscriber to the shared figure, and its draw
notifies the subscribers present after the regular one was attached. -/
theorem createFigure_found_step (df : DiagramFactory) (ty c : String)
    {fig : FlyweightFigure} (h : figAt df.flyFactory ty = some fig) :
    figAt (df.createFigure ty c).1.flyFactory ty
      = some { fig with subscribers :=
                fig.subscribers ++ [.regSub, .contrastImageSub] }
    ∧ (df.createFigure ty c).2
      = ("Coordinates: " ++ c)
          :: FlyweightFigure.draw
              { fig with subscribers := fig.subscribers ++ [.regSub] } := by
  simp only [figAt, Option.bind_eq_some] at h
  obtain ⟨i, hi, hs⟩ := h
  have hr : df.flyFactory.getFigure ty = (df.flyFactory, i) := by
    simp [FlyweightFactory.getFigure, hi]
  have had := attach_draw_attach df.flyFactory ty i fig hi hs
  rw [createFigure_unfold, hr]
  exact ⟨had.1, by rw [had.2]⟩

/-- The first `createFigure` call for an unseen key creates the flyweight
per the substring rule with exactly the two subscribers attached, and its
draw ran with only the regular subscriber attached. -/
theorem createFigure_fresh_step (df : DiagramFactory) (ty c : String)
    (h : assocFind df.flyFactory.pool ty = none) :
    figAt (df.createFigure ty c).1.flyFactory ty
      = some { mkFlyweight ty with subscribers := [.regSub, .contrastImageSub] }
    ∧ (df.createFigure ty c).2
      = ("Coordinates: " ++ c)
          :: FlyweightFigure.draw { mkFlyweight ty with subscribers := [.regSub] } := by
  have hr : df.flyFactory.getFigure ty
      = ({ store := df.flyFactory.store ++ [mkFlyweight ty],
           pool := df.flyFactory.pool ++ [(ty, df.flyFactory.store.length)] },
         df.flyFactory.store.length) := by
    simp [FlyweightFactory.getFigure, h]
  have hpool : assocFind
      (df.flyFactory.pool ++ [(ty, df.flyFactory.store.length)]) ty
      = some df.flyFactory.store.length := by
    rw [assocFind_append_of_none h]
    simp [assocFind]
  have hs : (df.flyFactory.store ++ [mkFlyweight ty])[df.flyFactory.store.length]?
      = some (mkFlyweight ty) := List.getElem?_concat_length _ _
  have had := attach_draw_attach
      ⟨df.flyFactory.store ++ [mkFlyweight ty],
       df.flyFactory.pool ++ [(ty, df.flyFactory.store.length)]⟩
      ty df.flyFactory.store.length (mkFlyweight ty) hpool hs
  rw [createFigure_unfold, hr]
  refine ⟨?_, ?_⟩
  · rw [had.1, mkFlyweight_subscribers]
    rfl
  · rw [had.2, mkFlyweight_subscribers]
    rfl

/-- Folding further `createFigure` calls for the same key appends two
subscribers per call, never detaching or deduplicating. -/
theorem foldl_createFigure_inv (ty : String) (coords : List String) :
    ∀ (df : DiagramFactory) (fig : FlyweightFigure),
      figAt df.flyFactory ty = some fig →
      figAt ((coords.foldl (applyCreateFigure ty) df)).flyFactory ty
        = some { fig with subscribers :=
                  fig.subscribers ++ subsAfter coords.length } := by
  induction coords with
  | nil =>
    intro df fig h
    obtain ⟨v, t, s⟩ := fig
    simpa [subsAfter] using h
  | cons c cs ih =>
    intro df fig h
    have step := (createFigure_found_step df ty c h).1
    have hrec := ih (applyCreateFigure ty df c) _ step
    rw [List.foldl_cons, hrec]
    obtain ⟨v, t, s⟩ := fig
    simp [subsAfter, List.append_assoc]

/-- C10: starting from a state where the key is unseen, the first
`createDiagram("Figure", key, coord)` plus one further call per entry of
`coords` (n = `coords.length + 1` calls in total, same key) leave the single
shared flyweight for that key with exactly the subscriber list `subsAfter n`
— two more per call, none ever detached or deduplicated — of length `2 * n`;
a draw of the shared figure then notifies `2 * n` subscribers; and the first
call's own draw ran with only the regular subscriber attached (exactly one
notification). -/
theorem c10_figure_subscriber_growth (df : DiagramFactory) (ty coord : String)
    (coords : List String) (h : assocFind df.flyFactory.pool ty = none) :
    figAt ((coords.foldl (applyCreateFigure ty)
        (df.createFigure ty coord).1)).flyFactory ty
      = some { mkFlyweight ty with subscribers := subsAfter (coords.length + 1) }
    ∧ (subsAfter (coords.length + 1)).length = 2 * (coords.length + 1)
    ∧ (∀ fig, figAt ((coords.foldl (applyCreateFigure ty)
          (df.createFigure ty coord).1)).flyFactory ty = some fig →
        fig.draw.length = 2 * (coords.length + 1) + 1)
    ∧ (df.createFigure ty coord).2
      = ("Coordinates: " ++ coord)
          :: FlyweightFigure.draw { mkFlyweight ty with subscribers := [.regSub] }
    ∧ (FlyweightFigure.draw
        { mkFlyweight ty with subscribers := [.regSub] }).length = 2 := by
  have hfresh := createFigure_fresh_step df ty coord h
  have hfold := foldl_createFigure_inv ty coords (df.createFigure ty coord).1
      _ hfresh.1
  have hmain : figAt ((coords.foldl (applyCreateFigure ty)
      (df.createFigure ty coord).1)).flyFactory ty
      = some { mkFlyweight ty with subscribers := subsAfter (coords.length + 1) } := by
    rw [hfold]
    rfl
  refine ⟨hmain, subsAfter_length _, ?_, hfresh.2, ?_⟩
  · intro fig hfig
    rw [hmain] at hfig
    cases hfig
    rw [flyweight_draw_length]
    simp [subsAfter_length]
  · rw [flyweight_draw_length]
    rfl

/-- Witness for C10: two `createFigure` calls for "CircleColor" from fresh
state leave the shared colored flyweight with the four subscribers
`subsAfter 2`, and the first call's draw emitted exactly two lines (the
header and one notification). -/
theorem c10_figure_subscriber_growth_witness :
    figAt ((["(7,7)"].foldl (applyCreateFigure "CircleColor")
        (DiagramFactory.init.createFigure "CircleColor" "(5,5)").1)).flyFactory
        "CircleColor"
      = some { mkFlyweight "CircleColor" with
                subscribers := subsAfter (List.length ["(7,7)"] + 1) }
    ∧ (FlyweightFigure.draw { mkFlyweight "CircleColor" with
        subscribers := [.regSub] }).length = 2 :=
  ⟨(c10_figure_subscriber_growth DiagramFactory.init "CircleColor" "(5,5)"
      ["(7,7)"] rfl).1,
   (c10_figure_subscriber_growth DiagramFactory.init "CircleColor" "(5,5)"
      ["(7,7)"] rfl).2.2.2.2⟩

end DiagramBuilder
